import Mathlib

/-!
Verification of the candlestick pattern classifier and movement aggregator
of the Stock-Candlestick-Analysis-App (src/app.py), shallowly embedded:
prices are exact rationals, pandas boolean masks become Bool-valued
conditions, the DataFrame becomes a structure carrying column names, raw
rows (fields that failed numeric coercion are `none`) and an optional
Pattern column.
-/

namespace CandleApp

/-- A fully numeric OHLC bar (a row after `pd.to_numeric` + `dropna`). -/
structure Bar where
  Open : ℚ
  High : ℚ
  Low : ℚ
  Close : ℚ
deriving DecidableEq, Repr

/-- A raw row: each required field either coerced to a number or NaN
(`none`), as produced by `pd.to_numeric(..., errors='coerce')`. -/
structure RawBar where
  Open : Option ℚ
  High : Option ℚ
  Low : Option ℚ
  Close : Option ℚ
deriving DecidableEq, Repr

/-- `dropna(subset=required_columns)`: a raw row survives iff all four
required fields are numeric. -/
def RawBar.toBar (r : RawBar) : Option Bar :=
  match r.Open, r.High, r.Low, r.Close with
  | Option.some o, Option.some h, Option.some l, Option.some c =>
      Option.some ⟨o, h, l, c⟩
  | _, _, _, _ => Option.none

/-- Re-embed a clean bar as a raw row (all fields numeric). -/
def Bar.toRaw (b : Bar) : RawBar :=
  ⟨Option.some b.Open, Option.some b.High, Option.some b.Low, Option.some b.Close⟩

/-- The closed label enumeration; `nonePat` is the string `'None'`. -/
inductive PatternLabel where
  | nonePat
  | doji
  | hammer
  | bullishEngulfing
  | bearishEngulfing
deriving DecidableEq, Repr

/-- `df['Body'] = abs(df['Close'] - df['Open'])`. -/
def Body (b : Bar) : ℚ := |b.Close - b.Open|

/-- `df['Upper_Shadow'] = df['High'] - df[['Open','Close']].max(axis=1)`. -/
def Upper_Shadow (b : Bar) : ℚ := b.High - max b.Open b.Close

/-- `df['Lower_Shadow'] = df[['Open','Close']].min(axis=1) - df['Low']`. -/
def Lower_Shadow (b : Bar) : ℚ := min b.Open b.Close - b.Low

/-- The Doji mask of app.py line 35 (`0.1 = 1/10` exactly over ℚ). -/
def dojiCond (b : Bar) : Bool :=
  decide (Body b ≤ 1 / 10 * (b.High - b.Low))
    && decide (Upper_Shadow b > 0) && decide (Lower_Shadow b > 0)

/-- The Hammer mask of app.py line 39 (`0.3 = 3/10` exactly over ℚ). -/
def hammerCond (b : Bar) : Bool :=
  decide (Body b ≤ 3 / 10 * (b.High - b.Low))
    && decide (Lower_Shadow b > 2 * Body b) && decide (Upper_Shadow b < Body b)

/-- The Bullish Engulfing mask of app.py line 43; `shift(1)` yields NaN on
the first row and every comparison with NaN is false, so a missing
predecessor gives `false`. -/
def bullishEngulfingCond (prev : Option Bar) (b : Bar) : Bool :=
  match prev with
  | Option.none => false
  | Option.some p =>
      decide (b.Close > b.Open) && decide (p.Close < p.Open)
        && decide (b.Close > p.Open) && decide (b.Open < p.Close)

/-- The Bearish Engulfing mask of app.py line 47 (mirror of the bullish
one). -/
def bearishEngulfingCond (prev : Option Bar) (b : Bar) : Bool :=
  match prev with
  | Option.none => false
  | Option.some p =>
      decide (b.Close < b.Open) && decide (p.Close > p.Open)
        && decide (b.Close < p.Open) && decide (b.Open > p.Close)

/-- Sequential label assignment of app.py lines 32-48: start from `'None'`
and let each rule, in source order, overwrite the label when its mask
holds. -/
def classifyBar (prev : Option Bar) (b : Bar) : PatternLabel :=
  let p0 := PatternLabel.nonePat
  let p1 := if dojiCond b then PatternLabel.doji else p0
  let p2 := if hammerCond b then PatternLabel.hammer else p1
  let p3 := if bullishEngulfingCond prev b then PatternLabel.bullishEngulfing else p2
  let p4 := if bearishEngulfingCond prev b then PatternLabel.bearishEngulfing else p3
  p4

/-- Walk the cleaned series carrying the previous surviving bar, as the
positional `shift(1)` does on the post-`dropna` frame. -/
def detectLabels : Option Bar → List Bar → List PatternLabel
  | _, [] => []
  | prev, b :: rest => classifyBar prev b :: detectLabels (Option.some b) rest

/-- The Pattern column computed for a cleaned series. -/
def patternLabels (bars : List Bar) : List PatternLabel :=
  detectLabels Option.none bars

/-- The DataFrame as the two functions see it: the column names, the raw
rows, and the Pattern column when one has been added (`pattern = none`
models a frame with no `'Pattern'` column). -/
structure DF where
  columns : List String
  rows : List RawBar
  pattern : Option (List PatternLabel)
deriving DecidableEq, Repr

def required_columns : List String := ["Open", "High", "Low", "Close"]

/-- app.py `detect_candlestick_patterns`: if any required column is
missing, return the input unchanged; otherwise coerce, drop incomplete
rows, add the derived columns and the Pattern column. -/
def detect_candlestick_patterns (df : DF) : DF :=
  if required_columns.all (fun col => df.columns.contains col) then
    let cleaned := df.rows.filterMap RawBar.toBar
    { columns := df.columns ++ ["Body", "Upper_Shadow", "Lower_Shadow", "Pattern"],
      rows := cleaned.map Bar.toRaw,
      pattern := Option.some (patternLabels cleaned) }
  else df

/-- Modelled from the spec wording of the precedence contract: the label of
the LAST matching rule in the fixed order Doji, Hammer, Bullish_Engulfing,
Bearish_Engulfing, and `'None'` when no rule matches. -/
def lastMatchLabel (prev : Option Bar) (b : Bar) : PatternLabel :=
  if bearishEngulfingCond prev b then PatternLabel.bearishEngulfing
  else if bullishEngulfingCond prev b then PatternLabel.bullishEngulfing
  else if hammerCond b then PatternLabel.hammer
  else if dojiCond b then PatternLabel.doji
  else PatternLabel.nonePat

/-- The dict returned by `predict_movement`. -/
structure Probabilities where
  Up : ℚ
  Down : ℚ
  Neutral : ℚ
deriving DecidableEq, Repr

/-- app.py `predict_movement`: without a `'Pattern'` column return the
zero dict; otherwise `value_counts().sum()` is the number of rows
(every label, `'None'` included, is a non-null string), and each bucket
is its label count over the total, times 100. -/
def predict_movement (df : DF) : Probabilities :=
  match df.pattern with
  | Option.none => ⟨0, 0, 0⟩
  | Option.some labels =>
      let total : ℚ := labels.length
      if total = 0 then ⟨0, 0, 0⟩
      else
        { Up := ((labels.count PatternLabel.bullishEngulfing : ℚ)
                  + (labels.count PatternLabel.hammer : ℚ)) / total * 100,
          Down := (labels.count PatternLabel.bearishEngulfing : ℚ) / total * 100,
          Neutral := (labels.count PatternLabel.doji : ℚ) / total * 100 }

theorem detectLabels_length (prev : Option Bar) (bars : List Bar) :
    (detectLabels prev bars).length = bars.length := by
  induction bars generalizing prev with
  | nil => rfl
  | cons b rest ih => simp [detectLabels, ih]

theorem detectLabels_getElem (bars : List Bar) (prev : Option Bar) (i : Nat) :
    (detectLabels prev bars)[i]? =
      (bars[i]?).map (classifyBar (if i = 0 then prev else bars[i - 1]?)) := by
  induction bars generalizing prev i with
  | nil => simp [detectLabels]
  | cons b rest ih =>
    cases i with
    | zero => simp [detectLabels]
    | succ j =>
      simp only [detectLabels, List.getElem?_cons_succ]
      rw [ih (Option.some b) j]
      cases j with
      | zero => simp
      | succ k => simp

/-- Claim C1: each bar of the classified series gets exactly one final
label, equal to the label of the last rule matching it in the fixed order
Doji, Hammer, Bullish_Engulfing, Bearish_Engulfing (later matches
overwrite earlier ones), and `'None'` when no rule matches. -/
theorem classify_is_last_matching_rule :
    (∀ (prev : Option Bar) (b : Bar), classifyBar prev b = lastMatchLabel prev b) ∧
    (∀ bars : List Bar, (patternLabels bars).length = bars.length) ∧
    (∀ (bars : List Bar) (i : Nat),
      (patternLabels bars)[i]? =
        (bars[i]?).map
          (classifyBar (if i = 0 then Option.none else bars[i - 1]?))) := by
  refine ⟨fun prev b => ?_, fun bars => detectLabels_length Option.none bars,
    fun bars i => detectLabels_getElem bars Option.none i⟩
  simp only [classifyBar, lastMatchLabel]

/-- Claim C3: a bar matches the Doji rule iff
`body <= 0.1 * range` and `upper_shadow > 0` and `lower_shadow > 0`, with
`body = |close - open|`, `range = high - low`,
`upper_shadow = high - max(open, close)`,
`lower_shadow = min(open, close) - low`. -/
theorem dojiCond_iff (b : Bar) :
    dojiCond b = true ↔
      |b.Close - b.Open| ≤ 1 / 10 * (b.High - b.Low)
        ∧ b.High - max b.Open b.Close > 0
        ∧ min b.Open b.Close - b.Low > 0 := by
  simp [dojiCond, Body, Upper_Shadow, Lower_Shadow, and_assoc]

/-- Claim C4: a bar matches the Hammer rule iff `body <= 0.3 * range` and
`lower_shadow > 2 * body` and `upper_shadow < body`; the bar
open=10, high=10.05, low=9.95, close=10.02 matches neither Doji nor
Hammer and is labeled `'None'`. -/
theorem hammerCond_iff_and_scenario1 :
    (∀ b : Bar, hammerCond b = true ↔
      |b.Close - b.Open| ≤ 3 / 10 * (b.High - b.Low)
        ∧ min b.Open b.Close - b.Low > 2 * |b.Close - b.Open|
        ∧ b.High - max b.Open b.Close < |b.Close - b.Open|) ∧
    dojiCond ⟨10, 201/20, 199/20, 501/50⟩ = false ∧
    hammerCond ⟨10, 201/20, 199/20, 501/50⟩ = false ∧
    patternLabels [⟨10, 201/20, 199/20, 501/50⟩] = [PatternLabel.nonePat] := by
  refine ⟨fun b => ?_, ?_⟩
  · simp [hammerCond, Body, Upper_Shadow, Lower_Shadow, and_assoc]
  · simp [patternLabels, detectLabels, classifyBar, dojiCond, hammerCond,
      bullishEngulfingCond, bearishEngulfingCond, Body, Upper_Shadow, Lower_Shadow]
    norm_num [abs_of_nonneg, abs_of_nonpos]

/-- Claim C5: a bar matches the Bullish_Engulfing rule iff it has a
preceding bar in the post-cleaning series with `close > open`,
`prev.close < prev.open`, `close > prev.open`, `open < prev.close`; the
first bar of a series never receives an engulfing label; the two-bar
scenario bar0 open=10, close=9 and bar1 open=8.5, close=10.5 labels
bar1 `Bullish_Engulfing`. -/
theorem bullish_engulfing_iff_and_first_bar :
    (∀ (prev : Option Bar) (b : Bar),
      bullishEngulfingCond prev b = true ↔
        ∃ p, prev = Option.some p ∧ b.Close > b.Open ∧ p.Close < p.Open
          ∧ b.Close > p.Open ∧ b.Open < p.Close) ∧
    (∀ b : Bar, classifyBar Option.none b ≠ PatternLabel.bullishEngulfing
      ∧ classifyBar Option.none b ≠ PatternLabel.bearishEngulfing) ∧
    (∀ (b : Bar) (rest : List Bar),
      (patternLabels (b :: rest))[0]? ≠ Option.some PatternLabel.bullishEngulfing
      ∧ (patternLabels (b :: rest))[0]? ≠ Option.some PatternLabel.bearishEngulfing) ∧
    patternLabels [⟨10, 10, 9, 9⟩, ⟨17/2, 21/2, 17/2, 21/2⟩]
      = [PatternLabel.nonePat, PatternLabel.bullishEngulfing] := by
  have hfirst : ∀ b : Bar, classifyBar Option.none b ≠ PatternLabel.bullishEngulfing
      ∧ classifyBar Option.none b ≠ PatternLabel.bearishEngulfing := by
    intro b
    simp only [classifyBar, bullishEngulfingCond, bearishEngulfingCond]
    cases dojiCond b <;> cases hammerCond b <;> simp
  refine ⟨fun prev b => ?_, hfirst, fun b rest => ?_, ?_⟩
  · cases prev with
    | none => simp [bullishEngulfingCond]
    | some p => simp [bullishEngulfingCond, and_assoc]
  · have h0 : (patternLabels (b :: rest))[0]? = Option.some (classifyBar Option.none b) := by
      simp [patternLabels, detectLabels]
    rw [h0]
    simpa using hfirst b
  · simp [patternLabels, detectLabels, classifyBar, dojiCond, hammerCond,
      bullishEngulfingCond, bearishEngulfingCond, Body, Upper_Shadow, Lower_Shadow]
    norm_num [abs_of_nonneg, abs_of_nonpos]

/-- Claim C6: a bar with open == close == high == low (zero range and
zero body) is labeled `'None'`: its shadow clauses are false so neither
Doji nor Hammer matches, and engulfing rules need strict inequalities. -/
theorem degenerate_bar_is_none (prev : Option Bar) (b : Bar)
    (h1 : b.Open = b.Close) (h2 : b.Close = b.High) (h3 : b.High = b.Low) :
    dojiCond b = false ∧ hammerCond b = false ∧
      classifyBar prev b = PatternLabel.nonePat := by
  obtain ⟨o, hi, lo, c⟩ := b
  simp only at h1 h2 h3
  subst h1 h2 h3
  cases prev with
  | none =>
    simp [classifyBar, dojiCond, hammerCond, bullishEngulfingCond,
      bearishEngulfingCond, Body, Upper_Shadow, Lower_Shadow]
  | some p =>
    simp [classifyBar, dojiCond, hammerCond, bullishEngulfingCond,
      bearishEngulfingCond, Body, Upper_Shadow, Lower_Shadow]

theorem degenerate_bar_is_none_witness :
    dojiCond ⟨5, 5, 5, 5⟩ = false ∧ hammerCond ⟨5, 5, 5, 5⟩ = false ∧
      classifyBar Option.none ⟨5, 5, 5, 5⟩ = PatternLabel.nonePat :=
  degenerate_bar_is_none Option.none ⟨5, 5, 5, 5⟩ rfl rfl rfl

/-- The Pattern column of the spec's Scenario 4: 10 bars, 2 Hammer,
1 Bullish_Engulfing, 1 Bearish_Engulfing, 1 Doji, 5 None. -/
def scenario4 : List PatternLabel :=
  [PatternLabel.hammer, PatternLabel.hammer, PatternLabel.bullishEngulfing,
   PatternLabel.bearishEngulfing, PatternLabel.doji, PatternLabel.nonePat,
   PatternLabel.nonePat, PatternLabel.nonePat, PatternLabel.nonePat,
   PatternLabel.nonePat]

/-- Claim C2: on a labeled series the aggregator returns the zero dict
exactly when the total label count (None included) is zero, and
otherwise Up = 100*(count Bullish_Engulfing + count Hammer)/total,
Down = 100*count Bearish_Engulfing/total, Neutral = 100*count Doji/total;
Scenario 4 yields Up=30, Down=10, Neutral=10. -/
theorem predict_movement_formula :
    (∀ (df : DF) (labels : List PatternLabel), df.pattern = Option.some labels →
      labels.length = 0 → predict_movement df = ⟨0, 0, 0⟩) ∧
    (∀ (df : DF) (labels : List PatternLabel), df.pattern = Option.some labels →
      labels.length ≠ 0 →
      predict_movement df =
        ⟨100 * ((labels.count PatternLabel.bullishEngulfing : ℚ)
            + (labels.count PatternLabel.hammer : ℚ)) / (labels.length : ℚ),
         100 * (labels.count PatternLabel.bearishEngulfing : ℚ) / (labels.length : ℚ),
         100 * (labels.count PatternLabel.doji : ℚ) / (labels.length : ℚ)⟩) ∧
    predict_movement ⟨required_columns ++ ["Pattern"], [], Option.some scenario4⟩
      = ⟨30, 10, 10⟩ := by
  have hformula : ∀ (df : DF) (labels : List PatternLabel),
      df.pattern = Option.some labels → labels.length ≠ 0 →
      predict_movement df =
        ⟨100 * ((labels.count PatternLabel.bullishEngulfing : ℚ)
            + (labels.count PatternLabel.hammer : ℚ)) / (labels.length : ℚ),
         100 * (labels.count PatternLabel.bearishEngulfing : ℚ) / (labels.length : ℚ),
         100 * (labels.count PatternLabel.doji : ℚ) / (labels.length : ℚ)⟩ := by
    intro df labels hp h0
    have hq : ((labels.length : ℚ)) ≠ 0 := by exact_mod_cast h0
    simp only [predict_movement, hp, if_neg hq]
    refine Probabilities.mk.injEq .. ▸ ⟨by ring, by ring, by ring⟩
  refine ⟨fun df labels hp h0 => ?_, hformula, ?_⟩
  · simp [predict_movement, hp, h0]
  · have c1 : scenario4.count PatternLabel.bullishEngulfing = 1 := rfl
    have c2 : scenario4.count PatternLabel.hammer = 2 := rfl
    have c3 : scenario4.count PatternLabel.bearishEngulfing = 1 := rfl
    have c4 : scenario4.count PatternLabel.doji = 1 := rfl
    have c5 : scenario4.length = 10 := rfl
    rw [hformula _ scenario4 rfl (by rw [c5]; norm_num), c1, c2, c3, c4, c5]
    simp only [Probabilities.mk.injEq]
    norm_num

theorem predict_movement_formula_witness :
    predict_movement ⟨required_columns, [], Option.some [PatternLabel.doji]⟩ =
      ⟨100 * (([PatternLabel.doji].count PatternLabel.bullishEngulfing : ℚ)
          + ([PatternLabel.doji].count PatternLabel.hammer : ℚ))
          / (([PatternLabel.doji] : List PatternLabel).length : ℚ),
       100 * (([PatternLabel.doji].count PatternLabel.bearishEngulfing : ℚ))
          / (([PatternLabel.doji] : List PatternLabel).length : ℚ),
       100 * (([PatternLabel.doji].count PatternLabel.doji : ℚ))
          / (([PatternLabel.doji] : List PatternLabel).length : ℚ)⟩ :=
  predict_movement_formula.2.1 ⟨required_columns, [], Option.some [PatternLabel.doji]⟩
    [PatternLabel.doji] rfl (by simp)

theorem count_add_count_le {α : Type} [DecidableEq α] (a b : α) (hab : a ≠ b)
    (l : List α) : l.count a + l.count b ≤ l.length := by
  induction l with
  | nil => simp
  | cons x xs ih =>
    simp only [List.count_cons, List.length_cons, beq_iff_eq]
    split_ifs with h1 h2 h2 <;>
      first
        | omega
        | exact absurd (h1.trans h2.symm) hab
        | exact absurd (h1.symm.trans h2) hab

/-- Claim C7: each of Up, Down, Neutral returned by the aggregator lies
in the closed interval [0, 100], for every input frame. -/
theorem predict_movement_bounds (df : DF) :
    (0 ≤ (predict_movement df).Up ∧ (predict_movement df).Up ≤ 100)
      ∧ (0 ≤ (predict_movement df).Down ∧ (predict_movement df).Down ≤ 100)
      ∧ (0 ≤ (predict_movement df).Neutral ∧ (predict_movement df).Neutral ≤ 100) := by
  rcases hp : df.pattern with _ | labels
  · simp [predict_movement, hp]
  · by_cases h0 : ((labels.length : ℚ)) = 0
    · simp [predict_movement, hp, h0]
    · have hpos : (0 : ℚ) < (labels.length : ℚ) :=
        lt_of_le_of_ne (Nat.cast_nonneg _) (Ne.symm h0)
      have bound : ∀ n : ℕ, n ≤ labels.length →
          0 ≤ (n : ℚ) / (labels.length : ℚ) * 100
            ∧ (n : ℚ) / (labels.length : ℚ) * 100 ≤ 100 := by
        intro n hn
        constructor
        · positivity
        · rw [div_mul_eq_mul_div, div_le_iff₀ hpos]
          have : (n : ℚ) ≤ (labels.length : ℚ) := by exact_mod_cast hn
          linarith
      have hup := bound (labels.count PatternLabel.bullishEngulfing
          + labels.count PatternLabel.hammer)
        (count_add_count_le PatternLabel.bullishEngulfing PatternLabel.hammer
          (by simp) labels)
      have hdown := bound (labels.count PatternLabel.bearishEngulfing)
        (List.count_le_length _ _)
      have hneutral := bound (labels.count PatternLabel.doji)
        (List.count_le_length _ _)
      simp only [predict_movement, hp, if_neg h0]
      push_cast at hup
      exact ⟨hup, hdown, hneutral⟩

/-- Claim C8: rows whose required fields fail numeric coercion are dropped
before rule evaluation, so the classification equals that of the
subsequence of surviving rows, and deleting a non-numeric row from the
input leaves the whole output frame unchanged (a surviving bar's
engulfing rules use the nearest surviving predecessor). -/
theorem drop_then_reindex (df : DF)
    (hcols : required_columns.all (fun col => df.columns.contains col) = true) :
    (detect_candlestick_patterns df).pattern
        = Option.some (patternLabels (df.rows.filterMap RawBar.toBar)) ∧
    ∀ (pre post : List RawBar) (bad : RawBar), RawBar.toBar bad = Option.none →
      df.rows = pre ++ bad :: post →
      detect_candlestick_patterns df
        = detect_candlestick_patterns ⟨df.columns, pre ++ post, df.pattern⟩ := by
  constructor
  · simp only [detect_candlestick_patterns, hcols, ite_true]
  · intro pre post bad hbad hrows
    simp only [detect_candlestick_patterns, hcols, ite_true, hrows,
      List.filterMap_append, List.filterMap_cons, hbad]

theorem drop_then_reindex_witness :
    (detect_candlestick_patterns
        ⟨required_columns,
         [⟨Option.some 10, Option.some 10, Option.some 9, Option.some 9⟩,
          ⟨Option.none, Option.some 1, Option.some 1, Option.some 1⟩,
          ⟨Option.some (17/2), Option.some (21/2), Option.some (17/2),
           Option.some (21/2)⟩], Option.none⟩).pattern
      = Option.some (patternLabels
          (([⟨Option.some 10, Option.some 10, Option.some 9, Option.some 9⟩,
             ⟨Option.none, Option.some 1, Option.some 1, Option.some 1⟩,
             ⟨Option.some (17/2), Option.some (21/2), Option.some (17/2),
              Option.some (21/2)⟩] : List RawBar).filterMap RawBar.toBar)) ∧
    detect_candlestick_patterns
        ⟨required_columns,
         [⟨Option.some 10, Option.some 10, Option.some 9, Option.some 9⟩,
          ⟨Option.none, Option.some 1, Option.some 1, Option.some 1⟩,
          ⟨Option.some (17/2), Option.some (21/2), Option.some (17/2),
           Option.some (21/2)⟩], Option.none⟩
      = detect_candlestick_patterns
          ⟨required_columns,
           [⟨Option.some 10, Option.some 10, Option.some 9, Option.some 9⟩]
             ++ [⟨Option.some (17/2), Option.some (21/2), Option.some (17/2),
                  Option.some (21/2)⟩], Option.none⟩ :=
  ⟨(drop_then_reindex _ (by simp [required_columns])).1,
   (drop_then_reindex _ (by simp [required_columns])).2
     [⟨Option.some 10, Option.some 10, Option.some 9, Option.some 9⟩]
     [⟨Option.some (17/2), Option.some (21/2), Option.some (17/2),
       Option.some (21/2)⟩]
     ⟨Option.none, Option.some 1, Option.some 1, Option.some 1⟩ rfl rfl⟩

/-- Claim C9: when one of the four required columns is absent the
classifier returns its input unchanged: no Pattern or derived column is
added and no failure occurs. -/
theorem missing_columns_pass_through (df : DF)
    (h : required_columns.all (fun col => df.columns.contains col) = false) :
    detect_candlestick_patterns df = df := by
  simp only [detect_candlestick_patterns, h, Bool.false_eq_true, ite_false,
    if_false]

theorem missing_columns_pass_through_witness :
    detect_candlestick_patterns ⟨["Open", "High"], [], Option.none⟩
      = ⟨["Open", "High"], [], Option.none⟩ :=
  missing_columns_pass_through ⟨["Open", "High"], [], Option.none⟩
    (by simp [required_columns])

/-- Claim C10: on a frame that carries no Pattern column at all, the
aggregator returns the zero dict instead of failing. -/
theorem no_pattern_column_zero (df : DF) (h : df.pattern = Option.none) :
    predict_movement df = ⟨0, 0, 0⟩ := by
  simp [predict_movement, h]

theorem no_pattern_column_zero_witness :
    predict_movement ⟨["Open", "High"], [], Option.none⟩ = ⟨0, 0, 0⟩ :=
  no_pattern_column_zero ⟨["Open", "High"], [], Option.none⟩ rfl

end CandleApp
